import Mathlib

/-!
Shallow embedding of the ext-proc routing-decision server
(pkg/processor/processor.go and pkg/server/server.go), together with
theorems checking the specification's claims against it.

External effects (the outbound HTTP GET, JSON decoding of its body, the
stream's receive/send results, context cancellation, and the shutdown
syscalls) are modelled as explicit oracle values passed in, so that every
definition is executable and each control path of the Go source maps to a
constructor of an outcome type.  A Go function that can fail to return
(block forever) has a dedicated `blocked` outcome constructor.
-/

namespace ExtProc

namespace config

/-- Modelled from the spec: the `pkg/config` package is not under `src/`;
§6 of the spec (and the repository README) give the preference-header
name `preferred-svc`. -/
def PreferredSvcHeader : String := "preferred-svc"

/-- Modelled from the spec: the `pkg/config` package is not under `src/`;
§6 of the spec (and the repository README) give the decision-header name
`x-routing-decision`. -/
def RoutingDecisionHeader : String := "x-routing-decision"

end config

/-- `core_v3.HeaderValue`: one header key/value pair (the code reads
`RawValue`, a byte string, modelled as `String`). -/
structure HeaderValue where
  key : String
  rawValue : String
deriving Repr, DecidableEq

/-- `ext_proc_v3.HttpHeaders`: the ordered header list of one message. -/
structure HttpHeaders where
  headers : List HeaderValue
deriving Repr, DecidableEq

/-- `core_v3.HeaderValueOption_AppendAction` (the enum values the wire
contract distinguishes). -/
inductive AppendAction where
  | APPEND_IF_EXISTS_OR_ADD
  | ADD_IF_ABSENT
  | OVERWRITE_IF_EXISTS_OR_ADD
deriving Repr, DecidableEq

/-- `core_v3.HeaderValueOption`: one set/append instruction. -/
structure HeaderValueOption where
  header : HeaderValue
  appendAction : AppendAction
deriving Repr, DecidableEq

/-- `ext_proc_v3.HeaderMutation`: headers to set and header keys to remove. -/
structure HeaderMutation where
  setHeaders : List HeaderValueOption
  removeHeaders : List String
deriving Repr, DecidableEq

/-- `ext_proc_v3.CommonResponse_ResponseStatus`. -/
inductive CommonResponseStatus where
  | CONTINUE
  | CONTINUE_AND_REPLACE
deriving Repr, DecidableEq

/-- `ext_proc_v3.CommonResponse`.  A fresh `&CommonResponse{}` has status
`CONTINUE` (enum zero value), no mutation, `ClearRouteCache = false`. -/
structure CommonResponse where
  status : CommonResponseStatus
  headerMutation : Option HeaderMutation
  clearRouteCache : Bool
deriving Repr, DecidableEq

/-- `ext_proc_v3.HeadersResponse`; the `Response` field is a pointer, so a
fresh `&HeadersResponse{}` carries `none`. -/
structure HeadersResponse where
  response : Option CommonResponse
deriving Repr, DecidableEq

/-- The tagged union `ProcessingRequest.Request`; `unknown` stands for any
payload the type switch's `default` branch catches. -/
inductive ProcessingRequest where
  | requestHeaders (h : HttpHeaders)
  | requestBody
  | requestTrailers
  | responseHeaders
  | responseBody
  | responseTrailers
  | unknown
deriving Repr, DecidableEq

/-- The `ProcessingResponse` values the code sends: the fresh
`&ProcessingResponse{}` (no oneof set) or a request-headers response. -/
inductive ProcessingResponse where
  | default
  | requestHeaders (r : HeadersResponse)
deriving Repr, DecidableEq

/-- How the body of a successful GET decodes with `json.Decoder.Decode`
into `RoutingDecision`: either the decode succeeds yielding the `decision`
field, or it fails, in which case the struct field holds whatever partial
value the decoder left behind (the zero value `""` for malformed input). -/
inductive DecodeResult where
  | ok (decision : String)
  | err (msg : String) (residual : String)
deriving Repr, DecidableEq

/-- Oracle for `http.Get` on the decision endpoint: either a transport
error, or a response whose body decodes as described. -/
inductive HttpResult where
  | transportError (e : String)
  | response (body : DecodeResult)
deriving Repr, DecidableEq

/-- The errors `fetchRoutingDecision` can return. -/
inductive FetchError where
  | configError (msg : String)
  | decodeError (msg : String)
deriving Repr, DecidableEq

/-- Outcome of `fetchRoutingDecision`: the returned `(string, error)`
pair, or `blocked` when the function never returns (stuck on `<-rChan`). -/
inductive FetchOutcome where
  | ok (decision : String)
  | err (e : FetchError) (decision : String)
  | blocked
deriving Repr, DecidableEq

/-- Result of `fetchRoutingDecision` together with the number of
`http.Get` calls it issued. -/
structure FetchResult where
  outcome : FetchOutcome
  httpCalls : Nat
deriving Repr, DecidableEq

/-- `fetchRoutingDecision` (processor.go): if the endpoint is unset it
returns a configuration error before any network call.  Otherwise it runs
`doExternalServiceCall` in an errgroup of size one: the goroutine sends
the response on the buffered channel `rChan` only when `http.Get`
succeeded, and returns the error.  After `errGrp.Wait()` the code
unconditionally executes `resp := <-rChan`; on a transport error nothing
was ever sent on `rChan` and no sender remains, so the receive blocks
forever.  On a received response the body is JSON-decoded into
`RoutingDecision` and `(decisionResp.Decision, err)` is returned. -/
def fetchRoutingDecision (endpoint : String) (world : HttpResult) :
    FetchResult :=
  if endpoint = "" then
    { outcome := .err
        (.configError "routing decision server has not been configured") ""
      httpCalls := 0 }
  else
    match world with
    | .transportError _ => { outcome := .blocked, httpCalls := 1 }
    | .response (.ok d) => { outcome := .ok d, httpCalls := 1 }
    | .response (.err m residual) =>
        { outcome := .err (.decodeError m) residual, httpCalls := 1 }

/-- `strings.ToLower` of the Go standard library, modelled character-wise
over the string's characters (extensionally it agrees with
`String.toLower`, but this form computes inside the kernel). -/
def toLowerString (s : String) : String :=
  String.mk (s.data.map Char.toLower)

/-- `getPreferredSvcFromHeaders` (processor.go): the value of the first
header whose lower-cased key equals the preference-header name, else `""`. -/
def getPreferredSvcFromHeaders (inh : HttpHeaders) : String :=
  match inh.headers.find?
      (fun n => toLowerString n.key = config.PreferredSvcHeader) with
  | some n => n.rawValue
  | none => ""

/-- Outcome of `generateRoutingDecision`: the returned
`(*HeadersResponse, error)` pair, or `blocked` when the fetch never
returns. -/
inductive GenOutcome where
  | done (resp : HeadersResponse) (error : Option FetchError)
  | blocked
deriving Repr, DecidableEq

/-- Result of `generateRoutingDecision` with the outbound-call count. -/
structure GenResult where
  outcome : GenOutcome
  httpCalls : Nat
deriving Repr, DecidableEq

/-- The `HeadersResponse` `generateRoutingDecision` builds once a
non-empty decision `header` is in hand: status CONTINUE, one set
instruction for the routing-decision header (append-if-exists-or-add),
one removal of the preference header, route cache cleared. -/
def builtHeadersResponse (header : String) : HeadersResponse :=
  { response := some
      { status := .CONTINUE
        headerMutation := some
          { setHeaders :=
              [ { header :=
                    { key := config.RoutingDecisionHeader
                      rawValue := header }
                  appendAction := .APPEND_IF_EXISTS_OR_ADD } ]
            removeHeaders := [config.PreferredSvcHeader] }
        clearRouteCache := true } }

/-- `generateRoutingDecision` (processor.go): short-circuit on a
non-empty preference-header value; otherwise call the outbound service.
On a fetch error return `(&HeadersResponse{}, err)`; on an empty decision
return `(&HeadersResponse{}, nil)`; otherwise build the mutation
response. -/
def generateRoutingDecision (endpoint : String) (world : HttpResult)
    (inh : HttpHeaders) : GenResult :=
  let header := getPreferredSvcFromHeaders inh
  if header = "" then
    let f := fetchRoutingDecision endpoint world
    match f.outcome with
    | .blocked => { outcome := .blocked, httpCalls := f.httpCalls }
    | .err e _ =>
        { outcome := .done { response := none } (some e)
          httpCalls := f.httpCalls }
    | .ok d =>
        if d = "" then
          { outcome := .done { response := none } none
            httpCalls := f.httpCalls }
        else
          { outcome := .done (builtHeadersResponse d) none
            httpCalls := f.httpCalls }
  else
    { outcome := .done (builtHeadersResponse header) none, httpCalls := 0 }

/-- What `srv.Recv()` yields on one loop iteration. -/
inductive RecvEvent where
  | eof
  | recvErr (e : String)
  | msg (req : ProcessingRequest)
deriving Repr, DecidableEq

/-- One iteration of the `Process` loop as seen from outside: whether the
context is already cancelled when the loop re-checks it, what `Recv`
returns, and whether `Send` (if reached) succeeds. -/
structure StreamEvent where
  cancelled : Bool
  recv : RecvEvent
  sendOk : Bool
deriving Repr, DecidableEq

/-- gRPC status codes the code uses. -/
inductive GrpcCode where
  | ok
  | unknown
deriving Repr, DecidableEq

/-- How a run of `Process` ends — or fails to end. `waitingRecv` means
the supplied event list is exhausted and the loop is blocked in `Recv`
awaiting the next message: the stream is still open. -/
inductive ProcOutcome where
  | waitingRecv
  | ctxDone
  | okEOF
  | recvError (code : GrpcCode) (msg : String)
  | decisionError (e : FetchError)
  | sendError
  | blockedOnFetch
deriving Repr, DecidableEq

/-- A run of `Process`: the responses successfully sent on the stream, in
order, and how the run ended. -/
structure ProcResult where
  sent : List ProcessingResponse
  outcome : ProcOutcome
deriving Repr, DecidableEq

/-- `Process` (processor.go), run against a list of loop-iteration
events.  Each iteration first checks cancellation, then receives: EOF
returns `nil`; any other receive error returns a `codes.Unknown` status
wrapping it.  Request-headers messages go through
`generateRoutingDecision` — a returned error is returned from `Process`
itself, ending the stream; all other message kinds leave the fresh
`&ProcessingResponse{}` untouched.  The built response is then sent;
a send failure ends the stream with that error. -/
def process (endpoint : String) (world : HttpResult) :
    List StreamEvent → ProcResult
  | [] => { sent := [], outcome := .waitingRecv }
  | ev :: rest =>
    if ev.cancelled then { sent := [], outcome := .ctxDone }
    else
      match ev.recv with
      | .eof => { sent := [], outcome := .okEOF }
      | .recvErr e =>
          { sent := []
            outcome := .recvError .unknown
              ("cannot receive stream request: " ++ e) }
      | .msg req =>
          match req with
          | .requestHeaders h =>
              let g := generateRoutingDecision endpoint world h
              match g.outcome with
              | .blocked => { sent := [], outcome := .blockedOnFetch }
              | .done _ (some e) =>
                  { sent := [], outcome := .decisionError e }
              | .done hr none =>
                  let resp := ProcessingResponse.requestHeaders hr
                  if ev.sendOk then
                    let r := process endpoint world rest
                    { sent := resp :: r.sent, outcome := r.outcome }
                  else { sent := [], outcome := .sendError }
          | _ =>
              if ev.sendOk then
                let r := process endpoint world rest
                { sent := ProcessingResponse.default :: r.sent
                  outcome := r.outcome }
              else { sent := [], outcome := .sendError }

/-- Message kinds the type switch recognizes but does not act on, plus
the `default` branch: everything except request-headers. -/
def inertKind : ProcessingRequest → Bool
  | .requestHeaders _ => false
  | _ => true

namespace server

/-- The fields of `server.Server` that `Stop` (server.go) consults. -/
structure ServerState where
  grpcServerPresent : Bool
  grpcNetwork : String
  httpSrvPresent : Bool
deriving Repr, DecidableEq

/-- Oracle for the effects `Stop` performs: the result of
`httpsrv.Shutdown(ctx)` and of `os.RemoveAll` on the socket path. -/
structure StopWorld where
  httpShutdownError : Option String
  removeAllError : Option String
deriving Repr, DecidableEq

/-- The observable phases of the `Stop` sequence, in execution order. -/
inductive StopStep where
  | gracefulStop
  | removeSocketFile
  | httpShutdown
  | sleepShutdownWait
deriving Repr, DecidableEq

/-- A run of `Stop`: the phases executed, in order, and the returned
error (if any). -/
structure StopResult where
  steps : List StopStep
  result : Option String
deriving Repr, DecidableEq

/-- `Stop` (server.go): gracefully stop the gRPC server when present,
remove the socket file when the network is "unix" (its error is discarded
via `// nolint:errcheck`), then shut down the auxiliary HTTP server when
present — but on a `Shutdown` error the wrapped error is returned at once,
so the final `time.Sleep(defaultShutdownWait)` does not run.  Otherwise
sleep the fixed shutdown wait and return `nil`. -/
def Stop (s : ServerState) (w : StopWorld) : StopResult :=
  let steps :=
    (if s.grpcServerPresent then [StopStep.gracefulStop] else []) ++
    (if s.grpcNetwork = "unix" then [StopStep.removeSocketFile] else [])
  if s.httpSrvPresent then
    match w.httpShutdownError with
    | some e =>
        { steps := steps ++ [.httpShutdown]
          result := some ("http server shutdown error: " ++ e) }
    | none =>
        { steps := steps ++ [.httpShutdown, .sleepShutdownWait]
          result := none }
  else
    { steps := steps ++ [.sleepShutdownWait], result := none }

end server

/-- Projection: the header mutation an emitted `HeadersResponse` carries
(none when the `Response` pointer is nil). -/
def headerMutationOf (r : HeadersResponse) : Option HeaderMutation :=
  match r.response with
  | some cr => cr.headerMutation
  | none => none

/-- Projection: whether an emitted `HeadersResponse` asks the proxy to
clear its route cache (false when the `Response` pointer is nil). -/
def clearsRouteCache (r : HeadersResponse) : Bool :=
  match r.response with
  | some cr => cr.clearRouteCache
  | none => false

/-- Case analysis on `generateRoutingDecision`: every run either blocks,
returns the empty `&HeadersResponse{}` (with or without an error), or
returns the built mutation response for some non-empty decision value
with no error. -/
theorem generateRoutingDecision_cases (endpoint : String)
    (world : HttpResult) (h : HttpHeaders) :
    (generateRoutingDecision endpoint world h).outcome = .blocked ∨
    (∃ e, (generateRoutingDecision endpoint world h).outcome =
      .done { response := none } e) ∨
    (∃ v, v ≠ "" ∧ (generateRoutingDecision endpoint world h).outcome =
      .done (builtHeadersResponse v) none) := by
  unfold generateRoutingDecision
  by_cases hph : getPreferredSvcFromHeaders h = ""
  · simp only [hph, if_pos]
    cases hf : (fetchRoutingDecision endpoint world).outcome with
    | ok d =>
        by_cases hd : d = ""
        · exact Or.inr (Or.inl ⟨none, by simp [hd]⟩)
        · exact Or.inr (Or.inr ⟨d, hd, by simp [hd]⟩)
    | err e d => exact Or.inr (Or.inl ⟨some e, by simp⟩)
    | blocked => exact Or.inl (by simp)
  · exact Or.inr (Or.inr ⟨getPreferredSvcFromHeaders h, hph, by simp [hph]⟩)

end ExtProc

namespace ExtProc

/-- **C1** (code_bug).  The claim: when the GET to the decision endpoint
fails with a transport error, `Process` does not terminate the stream,
still sends a "no decision" response, and loops on.  The code instead
gets stuck: `fetchRoutingDecision` blocks forever on `<-rChan` (nothing
was sent on the channel when `http.Get` erred), so no response is sent
and the later message of the stream is never processed. -/
theorem process_transport_error_stalls_stream :
    process "http://decision.local" (.transportError "connection refused")
      [ { cancelled := false
          recv := .msg (.requestHeaders { headers := [] })
          sendOk := true }
      , { cancelled := false, recv := .msg .requestBody, sendOk := true } ] =
    { sent := [], outcome := .blockedOnFetch } := by rfl

/-- **C2** (code_bug).  The claim: a malformed JSON body from the
decision endpoint is treated as "no decision available" and the stream is
not aborted.  The code instead propagates the decode error out of
`generateRoutingDecision`, and `Process` returns it, aborting the stream
with no response sent. -/
theorem process_decode_error_aborts_stream :
    process "http://decision.local"
      (.response (.err "invalid character looking for beginning of value" ""))
      [ { cancelled := false
          recv := .msg (.requestHeaders { headers := [] })
          sendOk := true } ] =
    { sent := []
      outcome := .decisionError
        (.decodeError "invalid character looking for beginning of value") } :=
  by rfl

/-- **C3** (confirmed).  A header set whose first preference-header
occurrence (case-insensitive key) has a non-empty value short-circuits:
the decision is that value, no outbound call occurs (`httpCalls = 0`,
result independent of the HTTP world), and the emitted response sets the
routing-decision header to the value (append-if-exists-or-add), removes
the preference header, and clears the route cache. -/
theorem generateRoutingDecision_pref_header_short_circuits
    (h : HttpHeaders) (n : HeaderValue) (endpoint : String)
    (world : HttpResult)
    (hfind : h.headers.find?
      (fun x => toLowerString x.key = config.PreferredSvcHeader) = some n)
    (hne : n.rawValue ≠ "") :
    generateRoutingDecision endpoint world h =
      { outcome := .done
          { response := some
              { status := .CONTINUE
                headerMutation := some
                  { setHeaders :=
                      [ { header :=
                            { key := config.RoutingDecisionHeader
                              rawValue := n.rawValue }
                          appendAction := .APPEND_IF_EXISTS_OR_ADD } ]
                    removeHeaders := [config.PreferredSvcHeader] }
                clearRouteCache := true } }
          none
        httpCalls := 0 } := by
  unfold generateRoutingDecision getPreferredSvcFromHeaders
  rw [hfind]
  simp [hne, builtHeadersResponse]

/-- Witness for C3: `preferred-svc: svc-a` (sent as `Preferred-Svc`)
yields the `x-routing-decision: svc-a` mutation with no outbound call,
even against an unreachable endpoint. -/
theorem generateRoutingDecision_pref_header_witness :
    generateRoutingDecision "http://decision.local"
      (.transportError "unreachable")
      { headers := [ { key := "Preferred-Svc", rawValue := "svc-a" } ] } =
      { outcome := .done
          { response := some
              { status := .CONTINUE
                headerMutation := some
                  { setHeaders :=
                      [ { header :=
                            { key := config.RoutingDecisionHeader
                              rawValue := "svc-a" }
                          appendAction := .APPEND_IF_EXISTS_OR_ADD } ]
                    removeHeaders := [config.PreferredSvcHeader] }
                clearRouteCache := true } }
          none
        httpCalls := 0 } :=
  generateRoutingDecision_pref_header_short_circuits
    { headers := [ { key := "Preferred-Svc", rawValue := "svc-a" } ] }
    { key := "Preferred-Svc", rawValue := "svc-a" }
    "http://decision.local" (.transportError "unreachable")
    (by decide) (by decide)

/-- **C4** (confirmed).  Without a preference header, when the outbound
call succeeds but decodes to the empty decision, `generateRoutingDecision`
returns the empty `&HeadersResponse{}` — no header mutation, no
route-cache clear — and no error. -/
theorem generateRoutingDecision_empty_decision_falls_through
    (h : HttpHeaders) (endpoint : String)
    (hfind : h.headers.find?
      (fun x => toLowerString x.key = config.PreferredSvcHeader) = none)
    (hep : endpoint ≠ "") :
    generateRoutingDecision endpoint (.response (.ok "")) h =
      { outcome := .done { response := none } none, httpCalls := 1 } ∧
    headerMutationOf { response := none } = none ∧
    clearsRouteCache { response := none } = false := by
  refine ⟨?_, rfl, rfl⟩
  unfold generateRoutingDecision getPreferredSvcFromHeaders
    fetchRoutingDecision
  rw [hfind]
  simp [hep]

/-- Witness for C4 at a concrete header set and endpoint. -/
theorem generateRoutingDecision_empty_decision_witness :
    generateRoutingDecision "http://decision.local" (.response (.ok ""))
      { headers := [ { key := "x-custom-header", rawValue := "value-1" } ] } =
      { outcome := .done { response := none } none, httpCalls := 1 } ∧
    headerMutationOf { response := none } = none ∧
    clearsRouteCache { response := none } = false :=
  generateRoutingDecision_empty_decision_falls_through
    { headers := [ { key := "x-custom-header", rawValue := "value-1" } ] }
    "http://decision.local" (by decide) (by decide)

/-- **C5** (confirmed).  Any message of an inert kind (request-body,
request-trailers, response-headers, response-body, response-trailers, or
unknown) makes `Process` send exactly one fresh `&ProcessingResponse{}`
and continue the loop on the remaining events. -/
theorem process_inert_kind_sends_default_and_continues
    (endpoint : String) (world : HttpResult) (req : ProcessingRequest)
    (rest : List StreamEvent) (hin : inertKind req = true) :
    process endpoint world
      ({ cancelled := false, recv := .msg req, sendOk := true } :: rest) =
      { sent := ProcessingResponse.default ::
          (process endpoint world rest).sent
        outcome := (process endpoint world rest).outcome } := by
  cases req
  case requestHeaders h => simp [inertKind] at hin
  all_goals rfl

/-- Witness for C5: a request-body-only stream gets exactly one default
response and the stream stays open awaiting the next receive. -/
theorem process_inert_kind_witness :
    process "http://decision.local" (.transportError "unreachable")
      [ { cancelled := false, recv := .msg .requestBody, sendOk := true } ] =
      { sent := [ProcessingResponse.default], outcome := .waitingRecv } := by
  rw [process_inert_kind_sends_default_and_continues "http://decision.local"
    (.transportError "unreachable") .requestBody [] (by decide)]
  rfl

/-- **C6** (confirmed).  A clean peer close (EOF on receive) makes
`Process` return success with no further response, and any other receive
failure ends the loop with a `codes.Unknown` status wrapping the
transport error. -/
theorem process_recv_end_and_failure (endpoint : String)
    (world : HttpResult) (rest : List StreamEvent) (e : String)
    (b₁ b₂ : Bool) :
    process endpoint world
        ({ cancelled := false, recv := .eof, sendOk := b₁ } :: rest) =
      { sent := [], outcome := .okEOF } ∧
    process endpoint world
        ({ cancelled := false, recv := .recvErr e, sendOk := b₂ } :: rest) =
      { sent := []
        outcome := .recvError .unknown
          ("cannot receive stream request: " ++ e) } :=
  ⟨rfl, rfl⟩

/-- **C7 counterexample** (corrected).  The claim says an error in any
shutdown phase does not prevent the remaining steps.  Concretely: a
server on a unix socket with the auxiliary HTTP backend, whose HTTP
shutdown errors, returns that error at once and the fixed post-shutdown
delay never executes. -/
theorem stop_http_error_skips_delay :
    server.Stop
      { grpcServerPresent := true, grpcNetwork := "unix"
        httpSrvPresent := true }
      { httpShutdownError := some "context deadline exceeded"
        removeAllError := none } =
      { steps := [.gracefulStop, .removeSocketFile, .httpShutdown]
        result :=
          some "http server shutdown error: context deadline exceeded" } ∧
    server.StopStep.sleepShutdownWait ∉
      (server.Stop
        { grpcServerPresent := true, grpcNetwork := "unix"
          httpSrvPresent := true }
        { httpShutdownError := some "context deadline exceeded"
          removeAllError := none }).steps := by
  exact ⟨rfl, by decide⟩

/-- **C7 amended** (corrected).  The stop sequence runs in order:
graceful gRPC drain, unix-socket file removal (its error is silently
discarded — the result never depends on it), HTTP-backend shutdown; when
the HTTP shutdown succeeds the fixed post-shutdown delay follows and Stop
returns success, but an HTTP-shutdown error is returned immediately,
skipping the delay. -/
theorem stop_sequence_order (s : server.ServerState) (w : server.StopWorld)
    (hg : s.grpcServerPresent = true) (hn : s.grpcNetwork = "unix")
    (hh : s.httpSrvPresent = true) :
    server.Stop s w =
      match w.httpShutdownError with
      | some e =>
          { steps := [.gracefulStop, .removeSocketFile, .httpShutdown]
            result := some ("http server shutdown error: " ++ e) }
      | none =>
          { steps := [.gracefulStop, .removeSocketFile, .httpShutdown,
              .sleepShutdownWait]
            result := none } := by
  obtain ⟨g, net, hs⟩ := s
  obtain ⟨he, hr⟩ := w
  simp only at hg hn hh
  subst hg hn hh
  cases he <;> rfl

/-- Witness for the amended C7, at a concrete server and a failing HTTP
shutdown. -/
theorem stop_sequence_order_witness :
    server.Stop
      { grpcServerPresent := true, grpcNetwork := "unix"
        httpSrvPresent := true }
      { httpShutdownError := some "boom", removeAllError := some "eperm" } =
      { steps := [.gracefulStop, .removeSocketFile, .httpShutdown]
        result := some ("http server shutdown error: " ++ "boom") } :=
  stop_sequence_order
    { grpcServerPresent := true, grpcNetwork := "unix"
      httpSrvPresent := true }
    { httpShutdownError := some "boom", removeAllError := some "eperm" }
    rfl rfl rfl

/-- **C8** (confirmed).  With the decision-endpoint URL unset,
`fetchRoutingDecision` fails at once with the configuration error and
issues no HTTP call, whatever the network would have answered. -/
theorem fetchRoutingDecision_unset_endpoint (world : HttpResult) :
    fetchRoutingDecision "" world =
      { outcome := .err
          (.configError "routing decision server has not been configured")
          ""
        httpCalls := 0 } := rfl

/-- **C9** (code_bug).  The claim: `fetchRoutingDecision` returns for
every outcome of the HTTP call, in particular on a transport error.  The
code instead blocks forever on `<-rChan` after a failed `http.Get`, since
`doExternalServiceCall` only sends on the channel when the call
succeeded. -/
theorem fetchRoutingDecision_transport_error_blocks :
    fetchRoutingDecision "http://decision.local"
      (.transportError "connection refused") =
      { outcome := .blocked, httpCalls := 1 } := rfl

/-- **C10** (confirmed).  Whenever `generateRoutingDecision` returns a
response that carries a header mutation, that mutation has exactly one
set instruction — the routing-decision header, append-if-exists-or-add,
with a non-empty value — and exactly one removal, the preference header
(present even when the request had no preference header). -/
theorem generateRoutingDecision_mutation_shape
    (endpoint : String) (world : HttpResult) (h : HttpHeaders)
    (r : HeadersResponse) (e : Option FetchError) (k : Nat)
    (cr : CommonResponse) (m : HeaderMutation)
    (hgen : generateRoutingDecision endpoint world h =
      { outcome := .done r e, httpCalls := k })
    (hr : r.response = some cr) (hm : cr.headerMutation = some m) :
    (∃ v, v ≠ "" ∧ m.setHeaders =
      [ { header :=
            { key := config.RoutingDecisionHeader, rawValue := v }
          appendAction := .APPEND_IF_EXISTS_OR_ADD } ]) ∧
    m.removeHeaders = [config.PreferredSvcHeader] := by
  rcases generateRoutingDecision_cases endpoint world h with hc | ⟨e', hc⟩ |
      ⟨v, hv, hc⟩ <;> rw [hgen] at hc
  · exact absurd hc (by simp)
  · simp only [GenOutcome.done.injEq] at hc
    rw [hc.1] at hr
    exact absurd hr (by simp)
  · simp only [GenOutcome.done.injEq] at hc
    rw [hc.1] at hr
    simp only [builtHeadersResponse, Option.some.injEq] at hr
    rw [← hr] at hm
    simp only [Option.some.injEq] at hm
    rw [← hm]
    exact ⟨⟨v, hv, rfl⟩, rfl⟩

/-- Witness for C10: no preference header in the request, decision
`svc-b` from the external call — the mutation still removes the
preference header and sets exactly the one decision header. -/
theorem generateRoutingDecision_mutation_shape_witness :
    (∃ v, v ≠ "" ∧
      ({ setHeaders :=
           [ { header :=
                 { key := config.RoutingDecisionHeader, rawValue := "svc-b" }
               appendAction := .APPEND_IF_EXISTS_OR_ADD } ]
         removeHeaders := [config.PreferredSvcHeader] } :
           HeaderMutation).setHeaders =
        [ { header :=
              { key := config.RoutingDecisionHeader, rawValue := v }
            appendAction := .APPEND_IF_EXISTS_OR_ADD } ]) ∧
    ({ setHeaders :=
         [ { header :=
               { key := config.RoutingDecisionHeader, rawValue := "svc-b" }
             appendAction := .APPEND_IF_EXISTS_OR_ADD } ]
       removeHeaders := [config.PreferredSvcHeader] } :
         HeaderMutation).removeHeaders = [config.PreferredSvcHeader] :=
  generateRoutingDecision_mutation_shape "http://decision.local"
    (.response (.ok "svc-b")) { headers := [] }
    (builtHeadersResponse "svc-b") none 1
    { status := .CONTINUE
      headerMutation := some
        { setHeaders :=
            [ { header :=
                  { key := config.RoutingDecisionHeader
                    rawValue := "svc-b" }
                appendAction := .APPEND_IF_EXISTS_OR_ADD } ]
          removeHeaders := [config.PreferredSvcHeader] }
      clearRouteCache := true }
    { setHeaders :=
        [ { header :=
              { key := config.RoutingDecisionHeader, rawValue := "svc-b" }
            appendAction := .APPEND_IF_EXISTS_OR_ADD } ]
      removeHeaders := [config.PreferredSvcHeader] }
    (by rfl) rfl rfl

end ExtProc
